import Mathlib

/-!
Verification of the real-time message-relay core of the AMD_CHATAPP
repository (`src/lib/socket.js` and the room-key / emit logic of the HTTP
controllers).  The JavaScript module keeps two module-level objects

  const userSocketMap = {};   // {userId: socketId}
  const expertSocketMap = {}; // {expertId: socketId}

and a set of socket event handlers.  We embed the JS objects as insertion
ordered association lists (JS object semantics for non-index string keys:
assignment updates in place or appends, `delete` removes, `Object.keys`
lists keys in insertion order), and each handler as a pure function from
relay state and inbound payload to new state plus emitted events.
-/

namespace ChatApp

/-- A JS object used as a string-to-string map: insertion-ordered
association list without duplicate keys (all states reachable by the
code keep keys unique, and every operation below is faithful to JS
object semantics even without that invariant). -/
abbrev ObjMap := List (String × String)

/-- `m[k]`: value of property `k`, `none` when absent (JS `undefined`).
First match, as JS objects have at most one entry per key. -/
def lookupKey : ObjMap → String → Option String
  | [], _ => none
  | (k', v) :: rest, k => if k' = k then some v else lookupKey rest k

/-- `m[k] = v`: updates the entry in place when the key exists (keeping
its position in key order), otherwise appends a new entry. -/
def setKey : ObjMap → String → String → ObjMap
  | [], k, v => [(k, v)]
  | (k', v') :: rest, k, v =>
      if k' = k then (k, v) :: rest else (k', v') :: setKey rest k v

/-- `delete m[k]`: removes every entry with key `k` (at most one in
reachable states). -/
def delKey (m : ObjMap) (k : String) : ObjMap :=
  m.filter (fun p => p.1 != k)

/-- `Object.keys(m)`: the keys in insertion order. -/
def keys (m : ObjMap) : List String := m.map Prod.fst

/-- The relay's whole mutable state: the two identity-space registries
`userSocketMap` and `expertSocketMap` of `socket.js`. -/
structure RelayState where
  userSocketMap : ObjMap
  expertSocketMap : ObjMap
deriving DecidableEq

/-- `export function getReceiverSocketId(userId) { return userSocketMap[userId]; }` -/
def getReceiverSocketId (st : RelayState) (userId : String) : Option String :=
  lookupKey st.userSocketMap userId

/-- `export function getExpertSocketId(expertId) { return expertSocketMap[expertId]; }` -/
def getExpertSocketId (st : RelayState) (expertId : String) : Option String :=
  lookupKey st.expertSocketMap expertId

/-! ### JS truthiness helpers

Handshake query values and map lookups are `string | undefined`; JS
treats `undefined` and `""` as falsy.  `a || b` returns `a` when truthy,
else `b`. -/

/-- JS `if (x)` on a `string | undefined` value: keep only truthy values. -/
def jsTruthy : Option String → Option String
  | none => none
  | some s => if s = "" then none else some s

/-- JS `a || b` on two `string | undefined` values. -/
def jsOr (a b : Option String) : Option String :=
  match a with
  | none => b
  | some s => if s = "" then b else some s

/-! ### Room keys

Every room id in the repository is derived inline as
`[x, y].sort().join("-")` (socket handlers `expertMessageEdited`,
`expertMessageDeleted`, `allExpertMessagesDeleted`, `conversationDeleted`
and the HTTP controllers `sendExpertMessage`, `deleteAllExpertMessages`,
`deleteFileExpert`).  For two strings, JS `Array.prototype.sort` (default
lexicographic comparator) yields `[x, y]` when `x <= y` and `[y, x]`
otherwise, so the join is the smaller string, `"-"`, the larger. -/

/-- Lexicographic comparison of character lists, the order JS uses to
compare strings (code-unit by code-unit, a strict prefix sorts first). -/
def lexLt : List Char → List Char → Bool
  | [], [] => false
  | [], _ :: _ => true
  | _ :: _, [] => false
  | c :: cs, d :: ds =>
      if c < d then true else if d < c then false else lexLt cs ds

/-- JS `a < b` on strings: lexicographic on the characters. -/
def strLt (a b : String) : Bool :=
  lexLt a.data b.data

/-- `[a, b].sort().join("-")`. -/
def roomKey (a b : String) : String :=
  if strLt b a then b ++ "-" ++ a else a ++ "-" ++ b

/-- Room-id derivation of the socket `expertMessageEdited` handler
(`socket.js` line 143): `[updatedMessage.senderId, updatedMessage.receiverId].sort().join("-")`. -/
def expertMessageEditedRoomId (senderId receiverId : String) : String :=
  if strLt receiverId senderId then receiverId ++ "-" ++ senderId
  else senderId ++ "-" ++ receiverId

/-- Room-id derivation of the HTTP controller `sendExpertMessage`
(`voice.controller.js` line 964): `[senderId.toString(), receiverId.toString()].sort().join("-")`. -/
def sendExpertMessageRoomId (senderId receiverId : String) : String :=
  if strLt receiverId senderId then receiverId ++ "-" ++ senderId
  else senderId ++ "-" ++ receiverId

/-! ### Connection handler

`io.on("connection", ...)` reads `socket.handshake.query.userId` and
`.expertId` (each `string | undefined`).  For each claim that is truthy
and not the literal string `"undefined"`, it stores `socket.id` in the
corresponding map and broadcasts `Object.keys` of that map to all
connections. -/

/-- A presence-snapshot broadcast (`io.emit`) to all connections. -/
inductive SnapshotEmit where
  | onlineUsers (ids : List String)
  | onlineExperts (ids : List String)
deriving DecidableEq

/-- `if (userId && userId !== "undefined")`: the handshake claim is
present, non-empty, and not the literal placeholder `"undefined"`. -/
def claimPresent : Option String → Bool
  | none => false
  | some s => s != "" && s != "undefined"

/-- User half of the `connection` handler (`socket.js` lines 35-41):
`if (userId && userId !== "undefined") { userSocketMap[userId] = socket.id;
io.emit("getOnlineUsers", Object.keys(userSocketMap)); }` -/
def registerUser (st : RelayState) (sid : String) (userId : Option String) :
    RelayState × List SnapshotEmit :=
  match userId with
  | some u =>
      if u != "" && u != "undefined" then
        let m := setKey st.userSocketMap u sid
        ({ st with userSocketMap := m }, [.onlineUsers (keys m)])
      else (st, [])
  | none => (st, [])

/-- Expert half of the `connection` handler (`socket.js` lines 44-50). -/
def registerExpert (st : RelayState) (sid : String) (expertId : Option String) :
    RelayState × List SnapshotEmit :=
  match expertId with
  | some e =>
      if e != "" && e != "undefined" then
        let m := setKey st.expertSocketMap e sid
        ({ st with expertSocketMap := m }, [.onlineExperts (keys m)])
      else (st, [])
  | none => (st, [])

/-- The `connection` handler (`socket.js` lines 28-50): register each
present handshake claim in its space and broadcast that space's
snapshot.  Returns the new state and the broadcast list in order. -/
def connectionHandler (st : RelayState) (sid : String) (userId expertId : Option String) :
    RelayState × List SnapshotEmit :=
  let r1 := registerUser st sid userId
  let r2 := registerExpert r1.1 sid expertId
  (r2.1, r1.2 ++ r2.2)

/-! ### Direct (peer-addressed) delivery

All four user-direct handlers (`sendMessage`, `messageEdited`,
`messageDeleted`, `allMessagesDeleted`) resolve the receiver the same
way:

    const receiverSocketId =
      userSocketMap[data.receiverId] || expertSocketMap[data.receiverId];
    if (receiverSocketId) { io.to(receiverSocketId).emit(...); }
-/

/-- Receiver resolution shared by the direct handlers: user space first,
then expert space, then the JS truthiness guard of `if (receiverSocketId)`. -/
def resolveReceiver (st : RelayState) (receiverId : String) : Option String :=
  jsTruthy (jsOr (lookupKey st.userSocketMap receiverId)
                 (lookupKey st.expertSocketMap receiverId))

/-- Inbound `sendMessage` payload.  Optional fields model JS properties
that a client may omit (`undefined` is `none`). -/
structure MessageData where
  _id : Option String
  senderId : Option String
  receiverId : String
  text : Option String
  time : Option String
  isFile : Option Bool
  fileId : Option String
  isVoice : Option Bool
deriving DecidableEq

/-- Outbound `newMessage` payload: the handler always materialises every
field, defaulting the optional ones. -/
structure NewMessage where
  _id : String
  senderId : Option String
  receiverId : String
  text : Option String
  time : String
  isFile : Bool
  fileId : Option String
  isVoice : Bool
deriving DecidableEq

/-- JS `s || d` where `s : string | undefined` and `d` a string default. -/
def jsOrStr (a : Option String) (d : String) : String :=
  match a with
  | none => d
  | some s => if s = "" then d else s

/-- JS `b || false` where `b : boolean | undefined`. -/
def jsOrFalse (a : Option Bool) : Bool :=
  match a with
  | none => false
  | some b => b

/-- JS `s || null` where `s : string | undefined` and `null` is `none`. -/
def jsOrNull (a : Option String) : Option String :=
  match a with
  | none => none
  | some s => if s = "" then none else some s

/-- The `sendMessage` handler (`socket.js` lines 61-85).  `now` stands
for `new Date()` and `nowId` for `new Date().getTime().toString()`, the
two values the handler synthesises when fields are missing.  Returns the
target socket id and the `newMessage` payload, or `none` when the
receiver is offline (the event is dropped, no error). -/
def sendMessage (st : RelayState) (m : MessageData) (now nowId : String) :
    Option (String × NewMessage) :=
  match resolveReceiver st m.receiverId with
  | some receiverSocketId =>
      some (receiverSocketId,
        { _id := jsOrStr m._id nowId
          senderId := m.senderId
          receiverId := m.receiverId
          text := m.text
          time := jsOrStr m.time now
          isFile := jsOrFalse m.isFile
          fileId := jsOrNull m.fileId
          isVoice := jsOrFalse m.isVoice })
  | none => none

/-- The socket ids a single `sendMessage` invocation delivers to. -/
def sendDeliveries (r : Option (String × NewMessage)) : List String :=
  match r with
  | some (sid, _) => [sid]
  | none => []

/-- The `allMessagesDeleted` handler (`socket.js` lines 116-135): same
receiver resolution, then emits `{senderId: data.senderId, receiverId:
data.receiverId}` to the receiver's socket.  The payload is kept as a
field-name/value list to record the exact JS object literal. -/
def allMessagesDeletedHandler (st : RelayState) (senderId receiverId : String) :
    Option (String × List (String × String)) :=
  match resolveReceiver st receiverId with
  | some receiverSocketId =>
      some (receiverSocketId, [("senderId", senderId), ("receiverId", receiverId)])
  | none => none

/-! ### Expert-to-expert (room-addressed) handlers -/

/-- An `io.to(roomId).emit(event, payload)` with the payload recorded as
the JS object literal's field-name/value list. -/
structure RoomEmit where
  room : String
  event : String
  fields : List (String × String)
deriving DecidableEq

/-- The `allExpertMessagesDeleted` handler (`socket.js` lines 167-177):
room id `[data.senderID, data.receiverID].sort().join("-")`, payload
`{senderID: data.senderID, receiverID: data.receiverID}`.  Note the
source reads fields `senderID` / `receiverID` (capital `ID`). -/
def allExpertMessagesDeletedHandler (senderID receiverID : String) : RoomEmit :=
  { room := roomKey senderID receiverID
    event := "allExpertMessagesDeleted"
    fields := [("senderID", senderID), ("receiverID", receiverID)] }

/-! ### Disconnect handler

`socket.on("disconnect", ...)` scans each map for the key currently
holding the closing socket's id (`Object.keys(map).find(key =>
map[key] === socket.id)`), deletes it if found (the JS `if` also
rejects the falsy key `""`), and rebroadcasts that space's snapshot.
A space whose scan finds nothing is left untouched and gets no
broadcast. -/

/-- `Object.keys(m).find((key) => m[key] === sid)`. -/
def findDisconnected (m : ObjMap) (sid : String) : Option String :=
  (keys m).find? (fun k => lookupKey m k == some sid)

/-- User-space half of the `disconnect` handler (`socket.js` lines 195-205). -/
def disconnectUser (st : RelayState) (sid : String) : RelayState × List SnapshotEmit :=
  match findDisconnected st.userSocketMap sid with
  | some u =>
      if u = "" then (st, [])
      else
        let m := delKey st.userSocketMap u
        ({ st with userSocketMap := m }, [.onlineUsers (keys m)])
  | none => (st, [])

/-- Expert-space half of the `disconnect` handler (`socket.js` lines 208-218). -/
def disconnectExpert (st : RelayState) (sid : String) : RelayState × List SnapshotEmit :=
  match findDisconnected st.expertSocketMap sid with
  | some e =>
      if e = "" then (st, [])
      else
        let m := delKey st.expertSocketMap e
        ({ st with expertSocketMap := m }, [.onlineExperts (keys m)])
  | none => (st, [])

/-- The whole `disconnect` handler (`socket.js` lines 191-219): user
space first, then expert space; broadcasts happen in that order. -/
def disconnectHandler (st : RelayState) (sid : String) : RelayState × List SnapshotEmit :=
  let r1 := disconnectUser st sid
  let r2 := disconnectExpert r1.1 sid
  (r2.1, r1.2 ++ r2.2)

/-- The user-space snapshot broadcasts among a list of emits. -/
def usersEmits (es : List SnapshotEmit) : List SnapshotEmit :=
  es.filter (fun e => match e with | .onlineUsers _ => true | .onlineExperts _ => false)

/-- The expert-space snapshot broadcasts among a list of emits. -/
def expertsEmits (es : List SnapshotEmit) : List SnapshotEmit :=
  es.filter (fun e => match e with | .onlineUsers _ => false | .onlineExperts _ => true)

/-- An identity claim the connection handler must ignore: absent, the
empty string, or the literal placeholder `"undefined"`. -/
def claimAbsent (c : Option String) : Prop :=
  c = none ∨ c = some "" ∨ c = some "undefined"

/-- Concrete relay state used in the `sendMessage` payload theorems:
user `"r1"` online on socket `"s1"`. -/
def sampleState : RelayState := ⟨[("r1", "s1")], []⟩

/-- A `sendMessage` payload that omits `_id`, `time`, `isFile`,
`fileId` and `isVoice` (a client may send only the core fields). -/
def sampleMsgBare : MessageData :=
  { _id := none, senderId := some "u9", receiverId := "r1", text := some "hi",
    time := none, isFile := none, fileId := none, isVoice := none }

/-- A `sendMessage` payload with every optional field supplied truthy. -/
def sampleMsgFull : MessageData :=
  { _id := some "m1", senderId := some "u9", receiverId := "r1", text := some "hi",
    time := some "t1", isFile := some true, fileId := some "f1", isVoice := some false }

/-- The `newMessage` payload the handler emits for `sampleMsgFull`. -/
def sampleNewMessageFull : NewMessage :=
  { _id := "m1", senderId := some "u9", receiverId := "r1", text := some "hi",
    time := "t1", isFile := true, fileId := some "f1", isVoice := false }

/-! ### Map lemmas -/

theorem lookup_setKey_self (m : ObjMap) (k v : String) :
    lookupKey (setKey m k v) k = some v := by
  induction m with
  | nil => simp [setKey, lookupKey]
  | cons p rest ih =>
      by_cases h : p.1 = k
      · simp [setKey, h, lookupKey]
      · simp [setKey, h, lookupKey, ih]

theorem lookup_delKey_self (m : ObjMap) (k : String) :
    lookupKey (delKey m k) k = none := by
  induction m with
  | nil => simp [delKey, lookupKey]
  | cons p rest ih =>
      by_cases h : p.1 = k
      · simpa [delKey, h] using ih
      · simpa [delKey, h, lookupKey] using ih

theorem lookup_delKey_ne (m : ObjMap) (j k : String) (h : k ≠ j) :
    lookupKey (delKey m j) k = lookupKey m k := by
  have hjk : j ≠ k := fun e => h e.symm
  induction m with
  | nil => simp [delKey]
  | cons p rest ih =>
      by_cases hp : p.1 = j
      · have h1 : delKey (p :: rest) j = delKey rest j := by
          simp [delKey, List.filter_cons, hp]
        have h2 : lookupKey (p :: rest) k = lookupKey rest k := by
          simp [lookupKey, hp, hjk]
        rw [h1, h2, ih]
      · have h1 : delKey (p :: rest) j = p :: delKey rest j := by
          simp [delKey, List.filter_cons, hp]
        by_cases hpk : p.1 = k
        · rw [h1]; simp [lookupKey, hpk]
        · rw [h1]; simp [lookupKey, hpk, ih]

theorem not_mem_keys_delKey (m : ObjMap) (k : String) :
    k ∉ keys (delKey m k) := by
  intro hmem
  rcases List.mem_map.mp hmem with ⟨p, hp, hfst⟩
  have := (List.mem_filter.mp hp).2
  rw [hfst] at this
  simp at this

theorem findDisconnected_lookup (m : ObjMap) (sid j : String)
    (h : findDisconnected m sid = some j) : lookupKey m j = some sid := by
  have := List.find?_some h
  simpa using this

theorem disconnectUser_expertMap (st : RelayState) (sid : String) :
    (disconnectUser st sid).1.expertSocketMap = st.expertSocketMap := by
  unfold disconnectUser
  cases h : findDisconnected st.userSocketMap sid with
  | none => rfl
  | some u =>
      by_cases hu : u = "" <;> simp [hu]

theorem disconnectExpert_userMap (st : RelayState) (sid : String) :
    (disconnectExpert st sid).1.userSocketMap = st.userSocketMap := by
  unfold disconnectExpert
  cases h : findDisconnected st.expertSocketMap sid with
  | none => rfl
  | some e =>
      by_cases he : e = "" <;> simp [he]

/-! ### Order lemmas for the string comparator -/

theorem lexLt_asymm : ∀ l m : List Char, lexLt l m = true → lexLt m l = false
  | [], [] => by simp [lexLt]
  | [], _ :: _ => by simp [lexLt]
  | _ :: _, [] => by simp [lexLt]
  | c :: cs, d :: ds => by
      intro h
      by_cases hcd : c < d
      · simp [lexLt, lt_asymm hcd, hcd]
      · by_cases hdc : d < c
        · simp [lexLt, hcd, hdc] at h
        · have := lexLt_asymm cs ds (by simpa [lexLt, hcd, hdc] using h)
          simp [lexLt, hcd, hdc, this]

theorem eq_of_lexLt_false : ∀ l m : List Char,
    lexLt l m = false → lexLt m l = false → l = m
  | [], [] => by intro _ _; rfl
  | [], _ :: _ => by simp [lexLt]
  | _ :: _, [] => by simp [lexLt]
  | c :: cs, d :: ds => by
      intro h1 h2
      by_cases hcd : c < d
      · simp [lexLt, hcd] at h1
      · by_cases hdc : d < c
        · simp [lexLt, hdc] at h2
        · have hc : c = d := le_antisymm (not_lt.mp hdc) (not_lt.mp hcd)
          have := eq_of_lexLt_false cs ds
            (by simpa [lexLt, hcd, hdc] using h1)
            (by simpa [lexLt, hc, lt_irrefl] using h2)
          rw [hc, this]

theorem strLt_asymm (a b : String) (h : strLt a b = true) : strLt b a = false :=
  lexLt_asymm a.data b.data h

theorem eq_of_strLt_false (a b : String) (h1 : strLt a b = false)
    (h2 : strLt b a = false) : a = b :=
  String.ext (eq_of_lexLt_false a.data b.data h1 h2)

theorem roomKey_comm (a b : String) : roomKey a b = roomKey b a := by
  unfold roomKey
  cases hba : strLt b a with
  | true => rw [strLt_asymm b a hba]; simp
  | false =>
      cases hab : strLt a b with
      | true => rfl
      | false => rw [eq_of_strLt_false a b hab hba]

/-! ### Structural lemmas about the handlers -/

theorem registerUser_expertMap (st : RelayState) (sid : String) (userId : Option String) :
    (registerUser st sid userId).1.expertSocketMap = st.expertSocketMap := by
  unfold registerUser
  cases userId with
  | none => rfl
  | some u => by_cases h : (u != "" && u != "undefined") = true <;> simp [h]

theorem registerExpert_userMap (st : RelayState) (sid : String) (expertId : Option String) :
    (registerExpert st sid expertId).1.userSocketMap = st.userSocketMap := by
  unfold registerExpert
  cases expertId with
  | none => rfl
  | some e => by_cases h : (e != "" && e != "undefined") = true <;> simp [h]

theorem registerUser_present (st : RelayState) (sid u : String)
    (h1 : u ≠ "") (h2 : u ≠ "undefined") :
    registerUser st sid (some u)
      = ({ st with userSocketMap := setKey st.userSocketMap u sid },
         [SnapshotEmit.onlineUsers (keys (setKey st.userSocketMap u sid))]) := by
  simp [registerUser, h1, h2]

theorem registerExpert_present (st : RelayState) (sid e : String)
    (h1 : e ≠ "") (h2 : e ≠ "undefined") :
    registerExpert st sid (some e)
      = ({ st with expertSocketMap := setKey st.expertSocketMap e sid },
         [SnapshotEmit.onlineExperts (keys (setKey st.expertSocketMap e sid))]) := by
  simp [registerExpert, h1, h2]

theorem registerUser_absent (st : RelayState) (sid : String) (userId : Option String)
    (h : userId = none ∨ userId = some "" ∨ userId = some "undefined") :
    registerUser st sid userId = (st, []) := by
  rcases h with h | h | h <;> subst h <;> simp [registerUser]

theorem registerExpert_absent (st : RelayState) (sid : String) (expertId : Option String)
    (h : expertId = none ∨ expertId = some "" ∨ expertId = some "undefined") :
    registerExpert st sid expertId = (st, []) := by
  rcases h with h | h | h <;> subst h <;> simp [registerExpert]

theorem usersEmits_registerExpert (st : RelayState) (sid : String) (expertId : Option String) :
    usersEmits (registerExpert st sid expertId).2 = [] := by
  unfold registerExpert
  cases expertId with
  | none => rfl
  | some e =>
      by_cases h : (e != "" && e != "undefined") = true <;> simp [h, usersEmits]

theorem expertsEmits_registerUser (st : RelayState) (sid : String) (userId : Option String) :
    expertsEmits (registerUser st sid userId).2 = [] := by
  unfold registerUser
  cases userId with
  | none => rfl
  | some u =>
      by_cases h : (u != "" && u != "undefined") = true <;> simp [h, expertsEmits]

theorem connectionHandler_state (st : RelayState) (sid : String) (userId expertId : Option String) :
    (connectionHandler st sid userId expertId).1
      = (registerExpert (registerUser st sid userId).1 sid expertId).1 := rfl

theorem connectionHandler_emits (st : RelayState) (sid : String) (userId expertId : Option String) :
    (connectionHandler st sid userId expertId).2
      = (registerUser st sid userId).2
        ++ (registerExpert (registerUser st sid userId).1 sid expertId).2 := rfl

theorem disconnectHandler_state (st : RelayState) (sid : String) :
    (disconnectHandler st sid).1 = (disconnectExpert (disconnectUser st sid).1 sid).1 := rfl

theorem disconnectHandler_emits (st : RelayState) (sid : String) :
    (disconnectHandler st sid).2
      = (disconnectUser st sid).2 ++ (disconnectExpert (disconnectUser st sid).1 sid).2 := rfl

theorem registered_user_lookup (st : RelayState) (sid u : String) (expertId : Option String)
    (h1 : u ≠ "") (h2 : u ≠ "undefined") :
    getReceiverSocketId (connectionHandler st sid (some u) expertId).1 u = some sid := by
  have h := registerUser_present st sid u h1 h2
  simp [getReceiverSocketId, connectionHandler_state, registerExpert_userMap, h,
    lookup_setKey_self]

theorem registered_expert_lookup (st : RelayState) (sid e : String) (userId : Option String)
    (h1 : e ≠ "") (h2 : e ≠ "undefined") :
    getExpertSocketId (connectionHandler st sid userId (some e)).1 e = some sid := by
  have h := registerExpert_present (registerUser st sid userId).1 sid e h1 h2
  simp [getExpertSocketId, connectionHandler_state, h, registerUser_expertMap,
    lookup_setKey_self]

theorem disconnectUser_lookup_ne (st : RelayState) (sid i h2 : String)
    (hi : lookupKey st.userSocketMap i = some h2) (hne : sid ≠ h2) :
    lookupKey (disconnectUser st sid).1.userSocketMap i = some h2 := by
  unfold disconnectUser
  cases hf : findDisconnected st.userSocketMap sid with
  | none => simpa using hi
  | some j =>
      by_cases hj : j = ""
      · simpa [hj] using hi
      · have hlj : lookupKey st.userSocketMap j = some sid :=
          findDisconnected_lookup _ _ _ hf
        have hij : i ≠ j := by
          intro e; subst e; rw [hi] at hlj
          exact hne (Option.some.inj hlj).symm
        simp [hj, lookup_delKey_ne _ _ _ hij, hi]

theorem disconnectExpert_lookup_ne (st : RelayState) (sid i h2 : String)
    (hi : lookupKey st.expertSocketMap i = some h2) (hne : sid ≠ h2) :
    lookupKey (disconnectExpert st sid).1.expertSocketMap i = some h2 := by
  unfold disconnectExpert
  cases hf : findDisconnected st.expertSocketMap sid with
  | none => simpa using hi
  | some j =>
      by_cases hj : j = ""
      · simpa [hj] using hi
      · have hlj : lookupKey st.expertSocketMap j = some sid :=
          findDisconnected_lookup _ _ _ hf
        have hij : i ≠ j := by
          intro e; subst e; rw [hi] at hlj
          exact hne (Option.some.inj hlj).symm
        simp [hj, lookup_delKey_ne _ _ _ hij, hi]

/-! ## Claims -/

/-- Claim C1: a stale disconnect is a no-op.  If identity `i` currently
maps to handle `h2` (because `h2` superseded `h1`), then the disconnect
of the old handle `h1` does not remove `i`'s entry in either identity
space: the handler deletes a key only when that key's current value
equals the disconnecting socket id, so `lookup` still returns `h2`
afterwards. -/
theorem stale_disconnect_preserves_fresh_handle (st : RelayState) (i h1 h2 : String)
    (hne : h1 ≠ h2) :
    (getReceiverSocketId st i = some h2 →
      getReceiverSocketId (disconnectHandler st h1).1 i = some h2) ∧
    (getExpertSocketId st i = some h2 →
      getExpertSocketId (disconnectHandler st h1).1 i = some h2) := by
  constructor
  · intro hi
    unfold getReceiverSocketId
    rw [disconnectHandler_state, disconnectExpert_userMap]
    exact disconnectUser_lookup_ne st h1 i h2 hi hne
  · intro hi
    unfold getExpertSocketId
    rw [disconnectHandler_state]
    refine disconnectExpert_lookup_ne _ h1 i h2 ?_ hne
    rw [disconnectUser_expertMap]
    exact hi

/-- Witness for C1: with `i1 ↦ h2` registered in both spaces, a
disconnect of the distinct stale handle `h1` leaves both lookups at `h2`. -/
theorem stale_disconnect_preserves_fresh_handle_witness :
    ("h1" : String) ≠ "h2" ∧
    getReceiverSocketId (disconnectHandler ⟨[("i1", "h2")], [("i1", "h2")]⟩ "h1").1 "i1"
      = some "h2" ∧
    getExpertSocketId (disconnectHandler ⟨[("i1", "h2")], [("i1", "h2")]⟩ "h1").1 "i1"
      = some "h2" :=
  ⟨by decide,
   (stale_disconnect_preserves_fresh_handle ⟨[("i1", "h2")], [("i1", "h2")]⟩ "i1" "h1" "h2"
      (by decide)).1 (by decide),
   (stale_disconnect_preserves_fresh_handle ⟨[("i1", "h2")], [("i1", "h2")]⟩ "i1" "h1" "h2"
      (by decide)).2 (by decide)⟩

/-- Claim C2: registration is last-connect-wins and immediately visible.
After the connection handler registers handle `sid` for identity `u`
(resp. `e`) in its space, the exported lookup returns `sid`; in
particular after two successive registrations of the same expert
identity with handles `sid1` then `sid2`, the lookup returns `sid2`
(and hence never the superseded `sid1` when the two differ). -/
theorem register_then_lookup (st : RelayState) (u e : String)
    (hu1 : u ≠ "") (hu2 : u ≠ "undefined") (he1 : e ≠ "") (he2 : e ≠ "undefined") :
    (∀ sid expertId,
      getReceiverSocketId (connectionHandler st sid (some u) expertId).1 u = some sid) ∧
    (∀ sid userId,
      getExpertSocketId (connectionHandler st sid userId (some e)).1 e = some sid) ∧
    (∀ sid1 sid2,
      getExpertSocketId
        (connectionHandler (connectionHandler st sid1 none (some e)).1 sid2 none (some e)).1 e
        = some sid2) :=
  ⟨fun sid expertId => registered_user_lookup st sid u expertId hu1 hu2,
   fun sid userId => registered_expert_lookup st sid e userId he1 he2,
   fun sid1 sid2 =>
     registered_expert_lookup (connectionHandler st sid1 none (some e)).1 sid2 e none he1 he2⟩

/-- Witness for C2: concrete register-then-lookup runs, including the
reconnect scenario where expert `"e1"` connects twice and the lookup
returns the second socket id. -/
theorem register_then_lookup_witness :
    ("u1" : String) ≠ "" ∧
    getReceiverSocketId (connectionHandler ⟨[], []⟩ "s1" (some "u1") none).1 "u1"
      = some "s1" ∧
    getExpertSocketId
      (connectionHandler (connectionHandler ⟨[], []⟩ "sA" none (some "e1")).1 "sB" none
        (some "e1")).1 "e1"
      = some "sB" :=
  ⟨by decide,
   (register_then_lookup ⟨[], []⟩ "u1" "e1" (by decide) (by decide) (by decide) (by decide)).1
     "s1" none,
   (register_then_lookup ⟨[], []⟩ "u1" "e1" (by decide) (by decide) (by decide) (by decide)).2.2
     "sA" "sB"⟩

/-- Claim C3: direct delivery resolves the user space first, then the
expert space; an identity registered in exactly one space is delivered
to exactly once, and an identity registered in neither space yields zero
deliveries with no error (the handler is total and returns nothing).
The final conjunct ties the `sendMessage` handler's delivery list to the
shared receiver resolution. -/
theorem direct_delivery_routing (st : RelayState) (r : String) :
    (∀ h, h ≠ "" → getReceiverSocketId st r = some h → resolveReceiver st r = some h) ∧
    (∀ h, h ≠ "" → getReceiverSocketId st r = none → getExpertSocketId st r = some h →
      resolveReceiver st r = some h) ∧
    (getReceiverSocketId st r = none → getExpertSocketId st r = none →
      resolveReceiver st r = none) ∧
    (∀ m now nowId, m.receiverId = r →
      sendDeliveries (sendMessage st m now nowId) = (resolveReceiver st r).toList) := by
  refine ⟨?_, ?_, ?_, ?_⟩
  · intro h hne hu
    have hu' : lookupKey st.userSocketMap r = some h := hu
    unfold resolveReceiver
    rw [hu']
    simp [jsOr, jsTruthy, hne]
  · intro h hne hu he
    have hu' : lookupKey st.userSocketMap r = none := hu
    have he' : lookupKey st.expertSocketMap r = some h := he
    unfold resolveReceiver
    rw [hu', he']
    simp [jsOr, jsTruthy, hne]
  · intro hu he
    have hu' : lookupKey st.userSocketMap r = none := hu
    have he' : lookupKey st.expertSocketMap r = none := he
    unfold resolveReceiver
    rw [hu', he']
    rfl
  · intro m now nowId hr
    subst hr
    cases h : resolveReceiver st m.receiverId <;> simp [sendMessage, sendDeliveries, h]

/-- Witness for C3: an expert-only identity is delivered to exactly its
expert-space handle; an unknown identity resolves to nothing. -/
theorem direct_delivery_routing_witness :
    ("s9" : String) ≠ "" ∧
    resolveReceiver ⟨[], [("e1", "s9")]⟩ "e1" = some "s9" ∧
    resolveReceiver ⟨[], []⟩ "nobody" = none :=
  ⟨by decide,
   (direct_delivery_routing ⟨[], [("e1", "s9")]⟩ "e1").2.1 "s9" (by decide) (by decide)
     (by decide),
   (direct_delivery_routing ⟨[], []⟩ "nobody").2.2.1 (by decide) (by decide)⟩

/-- Claim C4: the room key is symmetric in its two arguments, and the
socket-relay derivation (`expertMessageEdited` handler) and the HTTP
controller derivation (`sendExpertMessage`) are the same
sort-then-join-with-separator function. -/
theorem roomId_sort_join_symmetric :
    (∀ a b, expertMessageEditedRoomId a b = expertMessageEditedRoomId b a) ∧
    (∀ a b, sendExpertMessageRoomId a b = expertMessageEditedRoomId a b) ∧
    (∀ a b, roomKey a b = roomKey b a) :=
  ⟨fun a b => roomKey_comm a b, fun _ _ => rfl, roomKey_comm⟩

/-- Claim C5: when a connection registered as user `u` (and holding no
expert-space entry) disconnects, `u` is removed from the user-space
registry, the only broadcast is a `getOnlineUsers` snapshot that
excludes `u`, and the untouched expert space gets no broadcast and no
change. -/
theorem user_disconnect_cleanup (st : RelayState) (sid u : String)
    (hu : findDisconnected st.userSocketMap sid = some u) (hne : u ≠ "")
    (he : findDisconnected st.expertSocketMap sid = none) :
    getReceiverSocketId (disconnectHandler st sid).1 u = none ∧
    u ∉ keys (disconnectHandler st sid).1.userSocketMap ∧
    (disconnectHandler st sid).2
      = [SnapshotEmit.onlineUsers (keys (delKey st.userSocketMap u))] ∧
    u ∉ keys (delKey st.userSocketMap u) ∧
    (disconnectHandler st sid).1.expertSocketMap = st.expertSocketMap := by
  have h1 : disconnectUser st sid
      = ({ st with userSocketMap := delKey st.userSocketMap u },
         [SnapshotEmit.onlineUsers (keys (delKey st.userSocketMap u))]) := by
    unfold disconnectUser
    rw [hu]
    simp [hne]
  have hexp : findDisconnected (disconnectUser st sid).1.expertSocketMap sid = none := by
    rw [disconnectUser_expertMap]
    exact he
  have h2 : disconnectExpert (disconnectUser st sid).1 sid = ((disconnectUser st sid).1, []) := by
    unfold disconnectExpert
    rw [hexp]
  refine ⟨?_, ?_, ?_, not_mem_keys_delKey st.userSocketMap u, ?_⟩
  · unfold getReceiverSocketId
    rw [disconnectHandler_state, h2]
    rw [h1]
    simp [lookup_delKey_self]
  · rw [disconnectHandler_state, h2]
    rw [h1]
    simpa using not_mem_keys_delKey st.userSocketMap u
  · rw [disconnectHandler_emits, h2, h1]
    simp
  · rw [disconnectHandler_state, h2, disconnectUser_expertMap]

/-- Witness for C5: user `"u1"` on socket `"s1"` disconnects; the
snapshot and broadcast no longer contain `"u1"`, and no expert
broadcast happens. -/
theorem user_disconnect_cleanup_witness :
    findDisconnected [("u1", "s1"), ("u2", "s2")] "s1" = some "u1" ∧
    getReceiverSocketId
      (disconnectHandler ⟨[("u1", "s1"), ("u2", "s2")], [("e1", "s9")]⟩ "s1").1 "u1" = none ∧
    (disconnectHandler ⟨[("u1", "s1"), ("u2", "s2")], [("e1", "s9")]⟩ "s1").2
      = [SnapshotEmit.onlineUsers ["u2"]] :=
  ⟨by decide,
   (user_disconnect_cleanup ⟨[("u1", "s1"), ("u2", "s2")], [("e1", "s9")]⟩ "s1" "u1"
      (by decide) (by decide) (by decide)).1,
   by
     rw [(user_disconnect_cleanup ⟨[("u1", "s1"), ("u2", "s2")], [("e1", "s9")]⟩ "s1" "u1"
        (by decide) (by decide) (by decide)).2.2.1]
     decide⟩

/-- Counterexample to claim C6: the `sendMessage` handler does not
forward the payload unchanged.  With `_id`, `time`, `isFile`, `fileId`,
`isVoice` absent from the inbound payload, the delivered `newMessage`
carries a synthesized id (`nowId`), a synthesized timestamp (`now`),
and materialised `isFile := false`, `fileId := null`, `isVoice := false`;
in particular the delivered `_id` differs from the supplied one. -/
theorem sendMessage_synthesizes_absent_fields :
    sendMessage sampleState sampleMsgBare "T0" "N0"
      = some ("s1",
          { _id := "N0", senderId := some "u9", receiverId := "r1", text := some "hi",
            time := "T0", isFile := false, fileId := none, isVoice := false }) ∧
    sampleMsgBare._id = none ∧ sampleMsgBare.time = none ∧
    sampleMsgBare.isFile = none ∧ sampleMsgBare.isVoice = none ∧
    (sendMessage sampleState sampleMsgBare "T0" "N0").map (fun p => some p.2._id)
      ≠ some sampleMsgBare._id := by
  decide

/-- Claim C6 (amended): the `sendMessage` handler forwards `senderId`,
`receiverId` and `text` verbatim, and forwards `_id`, `time`, `isFile`,
`fileId` and `isVoice` exactly as supplied provided they are supplied
and truthy (non-empty strings, any supplied boolean); absent or falsy
optional fields are instead defaulted (generated id, current time,
`false`, `null`, `false`). -/
theorem sendMessage_forwards_supplied_truthy (st : RelayState) (m : MessageData)
    (now nowId sid : String) (nm : NewMessage)
    (hdel : sendMessage st m now nowId = some (sid, nm))
    (i : String) (hi : m._id = some i) (hi0 : i ≠ "")
    (t : String) (ht : m.time = some t) (ht0 : t ≠ "")
    (bf : Bool) (hbf : m.isFile = some bf)
    (bv : Bool) (hbv : m.isVoice = some bv)
    (f : String) (hf : m.fileId = some f) (hf0 : f ≠ "") :
    some nm._id = m._id ∧ nm.senderId = m.senderId ∧ nm.receiverId = m.receiverId ∧
    nm.text = m.text ∧ some nm.time = m.time ∧ some nm.isFile = m.isFile ∧
    nm.fileId = m.fileId ∧ some nm.isVoice = m.isVoice := by
  unfold sendMessage at hdel
  cases hres : resolveReceiver st m.receiverId with
  | none =>
      rw [hres] at hdel
      exact absurd hdel (by simp)
  | some rsid =>
      rw [hres] at hdel
      have hnm : nm
          = { _id := jsOrStr m._id nowId, senderId := m.senderId,
              receiverId := m.receiverId, text := m.text, time := jsOrStr m.time now,
              isFile := jsOrFalse m.isFile, fileId := jsOrNull m.fileId,
              isVoice := jsOrFalse m.isVoice } :=
        (congrArg Prod.snd (Option.some.inj hdel)).symm
      subst hnm
      refine ⟨?_, rfl, rfl, rfl, ?_, ?_, ?_, ?_⟩ <;>
        simp [hi, ht, hbf, hbv, hf, jsOrStr, jsOrFalse, jsOrNull, hi0, ht0, hf0]

/-- Witness for C6 (amended): a fully-supplied payload is forwarded
with every field intact. -/
theorem sendMessage_forwards_supplied_truthy_witness :
    sendMessage sampleState sampleMsgFull "T0" "N0" = some ("s1", sampleNewMessageFull) ∧
    some sampleNewMessageFull._id = sampleMsgFull._id ∧
    some sampleNewMessageFull.isFile = sampleMsgFull.isFile :=
  ⟨by decide,
   (sendMessage_forwards_supplied_truthy sampleState sampleMsgFull "T0" "N0" "s1"
      sampleNewMessageFull (by decide) "m1" (by decide) (by decide) "t1" (by decide)
      (by decide) true (by decide) false (by decide) "f1" (by decide) (by decide)).1,
   (sendMessage_forwards_supplied_truthy sampleState sampleMsgFull "T0" "N0" "s1"
      sampleNewMessageFull (by decide) "m1" (by decide) (by decide) "t1" (by decide)
      (by decide) true (by decide) false (by decide) "f1" (by decide)
      (by decide)).2.2.2.2.2.1⟩

theorem usersEmits_append (a b : List SnapshotEmit) :
    usersEmits (a ++ b) = usersEmits a ++ usersEmits b := by
  simp [usersEmits, List.filter_append]

theorem expertsEmits_append (a b : List SnapshotEmit) :
    expertsEmits (a ++ b) = expertsEmits a ++ expertsEmits b := by
  simp [expertsEmits, List.filter_append]

/-- Claim C7: the connection handler ignores an absent, empty, or
placeholder (`"undefined"`) identity claim — no registration and no
snapshot broadcast for that space — and for each present claim it
registers the socket in that space and broadcasts exactly that space's
refreshed snapshot; a handshake supplying both claims registers the
connection in both spaces (conjuncts three and four hold
simultaneously). -/
theorem handshake_claim_handling (st : RelayState) (sid : String)
    (userId expertId : Option String) :
    (claimAbsent userId →
      (connectionHandler st sid userId expertId).1.userSocketMap = st.userSocketMap ∧
      usersEmits (connectionHandler st sid userId expertId).2 = []) ∧
    (claimAbsent expertId →
      (connectionHandler st sid userId expertId).1.expertSocketMap = st.expertSocketMap ∧
      expertsEmits (connectionHandler st sid userId expertId).2 = []) ∧
    (∀ u, userId = some u → u ≠ "" → u ≠ "undefined" →
      getReceiverSocketId (connectionHandler st sid userId expertId).1 u = some sid ∧
      usersEmits (connectionHandler st sid userId expertId).2
        = [SnapshotEmit.onlineUsers (keys (setKey st.userSocketMap u sid))]) ∧
    (∀ e, expertId = some e → e ≠ "" → e ≠ "undefined" →
      getExpertSocketId (connectionHandler st sid userId expertId).1 e = some sid ∧
      expertsEmits (connectionHandler st sid userId expertId).2
        = [SnapshotEmit.onlineExperts (keys (setKey st.expertSocketMap e sid))]) := by
  refine ⟨?_, ?_, ?_, ?_⟩
  · intro h
    have hru := registerUser_absent st sid userId h
    constructor
    · rw [connectionHandler_state, hru]
      simp [registerExpert_userMap]
    · rw [connectionHandler_emits, hru]
      simp [usersEmits_registerExpert]
  · intro h
    have hre := registerExpert_absent (registerUser st sid userId).1 sid expertId h
    constructor
    · rw [connectionHandler_state, hre]
      simp [registerUser_expertMap]
    · rw [connectionHandler_emits, hre]
      simp [expertsEmits_registerUser]
  · intro u hu h1 h2
    subst hu
    have hru := registerUser_present st sid u h1 h2
    refine ⟨registered_user_lookup st sid u expertId h1 h2, ?_⟩
    rw [connectionHandler_emits, hru, usersEmits_append, usersEmits_registerExpert]
    simp [usersEmits]
  · intro e he h1 h2
    subst he
    have hre := registerExpert_present (registerUser st sid userId).1 sid e h1 h2
    refine ⟨registered_expert_lookup st sid e userId h1 h2, ?_⟩
    rw [connectionHandler_emits, hre, expertsEmits_append, expertsEmits_registerUser]
    simp [expertsEmits, registerUser_expertMap]

/-- Witness for C7: a handshake supplying both claims registers the
socket in both spaces, and a user-only handshake broadcasts exactly one
`getOnlineUsers` snapshot. -/
theorem handshake_claim_handling_witness :
    getReceiverSocketId (connectionHandler ⟨[], []⟩ "sC" (some "u7") (some "e7")).1 "u7"
      = some "sC" ∧
    getExpertSocketId (connectionHandler ⟨[], []⟩ "sC" (some "u7") (some "e7")).1 "e7"
      = some "sC" ∧
    usersEmits (connectionHandler ⟨[], []⟩ "sC" (some "u7") none).2
      = [SnapshotEmit.onlineUsers ["u7"]] :=
  ⟨((handshake_claim_handling ⟨[], []⟩ "sC" (some "u7") (some "e7")).2.2.1 "u7" rfl
      (by decide) (by decide)).1,
   ((handshake_claim_handling ⟨[], []⟩ "sC" (some "u7") (some "e7")).2.2.2 "e7" rfl
      (by decide) (by decide)).1,
   by
     rw [((handshake_claim_handling ⟨[], []⟩ "sC" (some "u7") none).2.2.1 "u7" rfl
        (by decide) (by decide)).2]
     decide⟩

/-- Counterexample to claim C8: no charset validation exists in the
code, and with identity tokens that contain the separator `"-"` the
room-key function is not injective on unordered pairs: the distinct
pairs `{"a-b", "c"}` and `{"a", "b-c"}` derive the same key. -/
theorem roomKey_separator_collision :
    roomKey "a-b" "c" = roomKey "a" "b-c" ∧
    ¬("a-b" = "a" ∧ "c" = "b-c") ∧ ¬("a-b" = "b-c" ∧ "c" = "a") := by
  decide

theorem sep_cons_append_inj : ∀ (l1 m1 l2 m2 : List Char), '-' ∉ l1 → '-' ∉ m1 →
    l1 ++ '-' :: l2 = m1 ++ '-' :: m2 → l1 = m1 ∧ l2 = m2
  | [], [], _, _, _, _, h => ⟨rfl, by simpa using h⟩
  | [], y :: m1, l2, m2, _, hm, h => by
      simp only [List.nil_append, List.cons_append, List.cons.injEq] at h
      exact absurd (h.1 ▸ List.mem_cons_self y m1) hm
  | x :: l1, [], l2, m2, hl, _, h => by
      simp only [List.nil_append, List.cons_append, List.cons.injEq] at h
      exact absurd (h.1 ▸ List.mem_cons_self x l1) hl
  | x :: l1, y :: m1, l2, m2, hl, hm, h => by
      simp only [List.cons_append, List.cons.injEq] at h
      have ih := sep_cons_append_inj l1 m1 l2 m2
        (fun hmem => hl (List.mem_cons_of_mem _ hmem))
        (fun hmem => hm (List.mem_cons_of_mem _ hmem)) h.2
      exact ⟨by rw [h.1, ih.1], ih.2⟩

theorem string_sep_join_inj (x y u v : String) (hx : '-' ∉ x.data) (hu : '-' ∉ u.data)
    (h : x ++ "-" ++ y = u ++ "-" ++ v) : x = u ∧ y = v := by
  have hsep : ("-" : String).data = ['-'] := rfl
  have hd : x.data ++ '-' :: y.data = u.data ++ '-' :: v.data := by
    have hdata := congrArg String.data h
    simpa [String.data_append, hsep] using hdata
  obtain ⟨h1, h2⟩ := sep_cons_append_inj x.data u.data y.data v.data hx hu hd
  exact ⟨String.ext h1, String.ext h2⟩

/-- Claim C8 (amended): the code performs no identity-token charset
validation, and the separator `"-"` can occur inside tokens, in which
case distinct unordered pairs can collide; the room-key function is
injective on unordered pairs of tokens that do not contain the
separator. -/
theorem roomKey_injective_without_separator (a b c d : String)
    (ha : '-' ∉ a.data) (hb : '-' ∉ b.data) (hc : '-' ∉ c.data) (hd : '-' ∉ d.data)
    (h : roomKey a b = roomKey c d) :
    (a = c ∧ b = d) ∨ (a = d ∧ b = c) := by
  unfold roomKey at h
  rcases Bool.eq_false_or_eq_true (strLt b a) with hba | hba <;>
    rcases Bool.eq_false_or_eq_true (strLt d c) with hdc | hdc <;>
      rw [hba, hdc] at h <;> simp only [Bool.false_eq_true, if_false, if_true] at h
  · obtain ⟨h1, h2⟩ := string_sep_join_inj b a d c hb hd h
    exact Or.inl ⟨h2, h1⟩
  · obtain ⟨h1, h2⟩ := string_sep_join_inj b a c d hb hc h
    exact Or.inr ⟨h2, h1⟩
  · obtain ⟨h1, h2⟩ := string_sep_join_inj a b d c ha hd h
    exact Or.inr ⟨h1, h2⟩
  · exact Or.inl (string_sep_join_inj a b c d ha hc h)

/-- Witness for C8 (amended): separator-free tokens `"u"`, `"v"` in
swapped order are recognised as the same unordered pair. -/
theorem roomKey_injective_without_separator_witness :
    ('-' ∉ ("u" : String).data) ∧
    ((("u" : String) = "v" ∧ ("v" : String) = "u") ∨
      (("u" : String) = "u" ∧ ("v" : String) = "v")) :=
  ⟨by decide,
   roomKey_injective_without_separator "u" "v" "v" "u" (by decide) (by decide) (by decide)
     (by decide) (by decide)⟩

/-- Counterexample to claim C9: the outbound `allExpertMessagesDeleted`
payload's field names are `senderID` and `receiverID` (capital `ID`),
not the `senderId` / `receiverId` names the user-direct
`allMessagesDeleted` outbound event uses. -/
theorem allExpertMessagesDeleted_uppercase_fields :
    (allExpertMessagesDeletedHandler "e1" "e2").fields.map Prod.fst
      = ["senderID", "receiverID"] ∧
    (["senderID", "receiverID"] : List String) ≠ ["senderId", "receiverId"] := by
  decide

/-- Claim C9 (amended): the outbound `allExpertMessagesDeleted` event
carries exactly two fields holding the pair's identities, but they are
named `senderID` and `receiverID` — unlike the user-direct
`allMessagesDeleted` outbound event, whose fields are `senderId` and
`receiverId` — and it is routed to the room keyed by the sorted pair of
those same identities. -/
theorem allExpertMessagesDeleted_emit_shape (a b : String) :
    (allExpertMessagesDeletedHandler a b).room = roomKey a b ∧
    (allExpertMessagesDeletedHandler a b).event = "allExpertMessagesDeleted" ∧
    (allExpertMessagesDeletedHandler a b).fields = [("senderID", a), ("receiverID", b)] ∧
    (∀ st s r sid fl, allMessagesDeletedHandler st s r = some (sid, fl) →
      fl.map Prod.fst = ["senderId", "receiverId"]) ∧
    (allExpertMessagesDeletedHandler a b).fields.map Prod.fst = ["senderID", "receiverID"] ∧
    (["senderID", "receiverID"] : List String) ≠ ["senderId", "receiverId"] := by
  refine ⟨rfl, rfl, rfl, ?_, rfl, by decide⟩
  intro st s r sid fl hfl
  unfold allMessagesDeletedHandler at hfl
  cases hres : resolveReceiver st r with
  | none =>
      rw [hres] at hfl
      exact absurd hfl (by simp)
  | some q =>
      rw [hres] at hfl
      have h2 : fl = [("senderId", s), ("receiverId", r)] :=
        (congrArg Prod.snd (Option.some.inj hfl)).symm
      subst h2
      rfl

/-- Witness for C9 (amended): a delivered `allMessagesDeleted` event's
field names are `senderId` / `receiverId`. -/
theorem allExpertMessagesDeleted_emit_shape_witness :
    allMessagesDeletedHandler ⟨[("r1", "s1")], []⟩ "a1" "r1"
      = some ("s1", [("senderId", "a1"), ("receiverId", "r1")]) ∧
    ([("senderId", "a1"), ("receiverId", "r1")] : List (String × String)).map Prod.fst
      = ["senderId", "receiverId"] :=
  ⟨by decide,
   (allExpertMessagesDeleted_emit_shape "e1" "e2").2.2.2.1 ⟨[("r1", "s1")], []⟩ "a1" "r1"
     "s1" [("senderId", "a1"), ("receiverId", "r1")] (by decide)⟩

/-- Claim C10: the exported `getReceiverSocketId` consults only the
user-space map — its result is independent of the expert-space map, and
an identity absent from the user space resolves to nothing even when it
is registered in the expert space — while `getExpertSocketId` is the
lookup that resolves expert-space identities. -/
theorem getReceiverSocketId_user_space_only :
    (∀ (u e e' : ObjMap) (i : String),
      getReceiverSocketId ⟨u, e⟩ i = getReceiverSocketId ⟨u, e'⟩ i) ∧
    (∀ (st : RelayState) (i : String),
      lookupKey st.userSocketMap i = none → getReceiverSocketId st i = none) ∧
    (∀ (st : RelayState) (i : String),
      getExpertSocketId st i = lookupKey st.expertSocketMap i) :=
  ⟨fun _ _ _ _ => rfl, fun _ _ h => h, fun _ _ => rfl⟩

/-- Witness for C10: with `"e1"` registered only in the expert space,
`getReceiverSocketId` returns nothing while `getExpertSocketId`
resolves the handle. -/
theorem getReceiverSocketId_user_space_only_witness :
    lookupKey ([] : ObjMap) "e1" = none ∧
    getReceiverSocketId ⟨[], [("e1", "s9")]⟩ "e1" = none ∧
    getExpertSocketId ⟨[], [("e1", "s9")]⟩ "e1" = some "s9" :=
  ⟨rfl, getReceiverSocketId_user_space_only.2.1 ⟨[], [("e1", "s9")]⟩ "e1" rfl, by decide⟩

end ChatApp
